import Mathlib

/-!
Verification of the terminal sticky-scroll contribution
(`terminal.stickyScroll.contribution.ts`): a shallow embedding of the
`TerminalStickyScrollContribution` class and its `_refresh`,
`_ensureElement`, buffer-change and click-handler logic, followed by
theorems about the specified behaviour.
-/

namespace StickyScroll

/-- An xterm `IMarker`: only its `line` field is read by this component.
A line of `-1` is the sentinel for a disposed/invalid marker. -/
structure Marker where
  line : Int
deriving DecidableEq, Repr

/-- A command record returned by the command-detection capability's
`getCommandForLine`. The source probes field *presence* with the `in`
operator (`'commandStartMarker' in command`, `'marker' in command`), so
presence (`has…`) is modelled separately from the field's value (which can
itself be `undefined`, i.e. `none`). -/
structure CommandRecord where
  hasCommandStartMarker : Bool
  commandStartMarker : Option Marker
  hasMarker : Bool
  marker : Option Marker
deriving DecidableEq, Repr

/-- The marker-resolution expression of `_refresh`:
`command && 'commandStartMarker' in command ? command.commandStartMarker
 : command && 'marker' in command ? command.marker : undefined`. -/
def resolveMarker (command : Option CommandRecord) : Option Marker :=
  match command with
  | none => none
  | some c =>
    if c.hasCommandStartMarker then c.commandStartMarker
    else if c.hasMarker then c.marker
    else none

/-- The overlay DOM element (`this._element`): its DOM text content and
whether it is currently shown (`show`/`hide`/`setVisibility` toggle this). -/
structure OverlayElement where
  textContent : String
  visible : Bool
deriving DecidableEq, Repr

/-- The fields of the primary terminal's active buffer that `_refresh`
reads: `viewportY` and `baseY`. -/
structure ActiveBuffer where
  viewportY : Int
  baseY : Int
deriving DecidableEq, Repr

/-- The mutable state of a `TerminalStickyScrollContribution` instance that
the modelled operations read or write. `hasXtermElement` is the truthiness
of `this._xterm?.raw?.element`; `overlayExists` is the truthiness of
`this._stickyScrollOverlay`. -/
structure StickyState where
  hasXtermElement : Bool
  currentStickyMarker : Option Marker
  element : Option OverlayElement
  overlayExists : Bool
deriving DecidableEq, Repr

/-- The external inputs a single `_refresh` call consults: the
command-detection capability (`none` when the capability is not
registered), the serialize addon (`none` before it loads; when present, a
function from the requested `scrollback` count to the serialized string),
and the primary terminal's active buffer. -/
structure RefreshEnv where
  commandDetection : Option (Int → Option CommandRecord)
  serializeAddon : Option (Int → String)
  buffer : ActiveBuffer

/-- JavaScript `String.prototype.indexOf` for a single character: the index
of the first occurrence, or `-1` when absent. -/
def jsIndexOf (s : String) (c : Char) : Int :=
  match s.data.findIdx? (fun x => x = c) with
  | some i => (i : Int)
  | none => -1

/-- JavaScript `String.prototype.substring start stop`: both arguments are
clamped to `[0, length]` and swapped if out of order. In particular
`substring 0 (-1)` is the empty string. -/
def jsSubstring (s : String) (start stop : Int) : String :=
  let len : Int := (s.length : Int)
  let a : Nat := (max 0 (min start len)).toNat
  let b : Nat := (max 0 (min stop len)).toNat
  let lo : Nat := min a b
  let hi : Nat := max a b
  String.mk ((s.data.drop lo).take (hi - lo))

/-- The escape sequence `_refresh` writes to reset the overlay terminal:
cursor home (`ESC [H`) followed by erase-in-line (`ESC [K`). -/
def resetSeq : String := "\x1b[H\x1b[K"

/-- `_ensureElement`: returns the existing element, or creates the DOM
container on first call. A freshly created `div` has empty text content and
is visible (no hiding style applied at creation). On the creation path the
source assigns and appends `this._element` and then runs
`this._stickyScrollOverlay!.open(this._element)`: the non-null assertion is
erased at runtime, so when the overlay terminal is not yet constructed this
is `undefined.open(...)` — a TypeError thrown *after* the fresh element has
been recorded. The first component is `none` in that case (the exception
propagates to the caller, whose remaining statements do not run). -/
def ensureElement (st : StickyState) : Option OverlayElement × StickyState :=
  match st.element with
  | some e => (some e, st)
  | none =>
    let e : OverlayElement := { textContent := "", visible := true }
    let st1 : StickyState := { st with element := some e }
    if st.overlayExists then (some e, st1) else (none, st1)

/-- The show/hide step of `_refresh` on the ensured element:
`if (element.textContent === '') { hide(element); } else { show(element); }`. -/
def visAdjust (e : OverlayElement) : OverlayElement :=
  if e.textContent = "" then { e with visible := false }
  else { e with visible := true }

/-- The outcome of one `_refresh` call: the post-state, the `scrollback`
arguments passed to `serializeAddon.serialize` during the call, and the
strings written to the overlay terminal during the call, in order. -/
structure RefreshResult where
  state : StickyState
  serializeCalls : List Int
  overlayWrites : List String

/-- The body of `_refresh` (the `@throttle(0)`-decorated method), translated
statement by statement:
1. return if `this._xterm?.raw?.element` is unset;
2. clear `this._currentStickyMarker`;
3. return if the command-detection capability is absent;
4. resolve a marker from `getCommandForLine(viewportY)` (see
   `resolveMarker`); return if it is `undefined` or its line is `-1`;
5. record the marker, ensure the element, and hide it when its
   `textContent` is the empty string, else show it;
6. if the overlay terminal exists: write the reset sequence, serialize with
   `scrollback = baseY - marker.line` (when the addon is loaded), and if the
   result is truthy, write its prefix up to the first `\r` when that prefix
   is truthy. -/
def refresh (env : RefreshEnv) (st : StickyState) : RefreshResult :=
  if st.hasXtermElement = false then
    ⟨st, [], []⟩
  else
    let st1 : StickyState := { st with currentStickyMarker := none }
    match env.commandDetection with
    | none => ⟨st1, [], []⟩
    | some getCommandForLine =>
      let command := getCommandForLine env.buffer.viewportY
      match resolveMarker command with
      | none => ⟨st1, [], []⟩
      | some m =>
        if m.line = -1 then ⟨st1, [], []⟩
        else
          let st2 : StickyState := { st1 with currentStickyMarker := some m }
          let p := ensureElement st2
          match p.1 with
          | none => ⟨p.2, [], []⟩
          | some e0 =>
          let st3 := p.2
          let e1 : OverlayElement :=
            if e0.textContent = "" then { e0 with visible := false }
            else { e0 with visible := true }
          let st4 : StickyState := { st3 with element := some e1 }
          if st4.overlayExists then
            match env.serializeAddon with
            | none => ⟨st4, [], [resetSeq]⟩
            | some serialize =>
              let scrollback := env.buffer.baseY - m.line
              let s := serialize scrollback
              if s = "" then ⟨st4, [scrollback], [resetSeq]⟩
              else
                let content := jsSubstring s 0 (jsIndexOf s '\r')
                if content = "" then ⟨st4, [scrollback], [resetSeq]⟩
                else ⟨st4, [scrollback], [resetSeq, content]⟩
          else ⟨st4, [], []⟩

/-- The buffer-change listener registered in `xtermReady`:
`const element = this._ensureElement(); setVisibility(buffer.type === 'normal', element)`.
`bufferType` is the xterm buffer's `type` string. When `_ensureElement`
throws (see `ensureElement`), `setVisibility` never runs and the listener
aborts with the freshly created, default-visible element recorded. -/
def onBufferChange (bufferType : String) (st : StickyState) : StickyState :=
  let p := ensureElement st
  match p.1 with
  | none => p.2
  | some e =>
    { p.2 with element := some { e with visible := bufferType = "normal" } }

/-- Vertical alignment modes of `scrollToLine` (from `markNavigationAddon`). -/
inductive ScrollPosition where
  | Top
  | Middle
deriving DecidableEq, Repr

/-- The click listener installed on the hover overlay in `_ensureElement`:
`if (this._xterm && this._currentStickyMarker) { this._xterm.scrollToLine(line, ScrollPosition.Middle) }`.
Returns the single scroll request issued, or `none`. `hasXterm` is the
truthiness of `this._xterm`. -/
def handleClick (hasXterm : Bool) (st : StickyState) :
    Option (Int × ScrollPosition) :=
  if hasXterm then
    match st.currentStickyMarker with
    | some m => some (m.line, ScrollPosition.Middle)
    | none => none
  else none

/-- The content extracted from a serialized string: its prefix up to the
first carriage return, `s.substring(0, s.indexOf('\r'))`. -/
def extractedContent (s : String) : String :=
  jsSubstring s 0 (jsIndexOf s '\r')

/-- Modelled from the spec: the `throttle(0)` rate-limiting decorator on
`_refresh` comes from `vs/base/common/decorators`, which is not part of the
sources under verification. Per the spec it performs trailing-edge
coalescing with zero minimum delay: of the `n` invocations dispatched
within one scheduling turn, the body runs exactly once at the end of the
turn (and not at all when `n = 0`). -/
def throttledTurn (body : StickyState → StickyState) (n : Nat)
    (st : StickyState) : StickyState :=
  if n = 0 then st else body st

/-- Modelled from the spec: the number of body executions the throttled
wrapper performs for `n` invocations within one scheduling turn. -/
def throttledExecCount (n : Nat) : Nat :=
  if n = 0 then 0 else 1

/-- `findIdx?` returns `none` on a list in which no element satisfies the
predicate. -/
theorem findIdx_none_of_all_false {p : Char → Bool} :
    ∀ l : List Char, (∀ c ∈ l, p c = false) → l.findIdx? p = none := by
  intro l h
  induction l with
  | nil => rfl
  | cons a t ih =>
    have ha : p a = false := h a (List.mem_cons_self a t)
    have ht : ∀ c ∈ t, p c = false := fun c hc => h c (List.mem_cons_of_mem a hc)
    simp [List.findIdx?, ha]
    simpa [List.findIdx?] using ih ht

/-- `substring 0 (-1)` (the `indexOf`-missed case) is always empty. -/
theorem jsSubstring_zero_neg_one (s : String) : jsSubstring s 0 (-1) = "" := by
  unfold jsSubstring
  have h0 : (0 : Int) ≤ (s.length : Int) := Int.ofNat_nonneg _
  have h1 : min (0 : Int) (s.length : Int) = 0 := min_eq_left h0
  have h2 : min (-1 : Int) (s.length : Int) = -1 := min_eq_left (by omega)
  simp only [h1, h2]
  norm_num

/-- `extractedContent` of the empty string is empty. -/
theorem extractedContent_empty : extractedContent "" = "" := by decide

/-- C1: if a command record exposes only `commandStartMarker`, the resolved
marker is that field's value (hence the resolved line index is that field's
line); if it exposes only `marker`, the resolved marker is that field's
value; if the record exposes neither field (or no record is returned), the
refresh returns early without modifying the overlay element or issuing any
serialize call or overlay write. -/
theorem refresh_marker_resolution_C1 :
    (∀ (c : CommandRecord) (m : Marker),
      c.hasCommandStartMarker = true → c.hasMarker = false →
      c.commandStartMarker = some m → resolveMarker (some c) = some m) ∧
    (∀ (c : CommandRecord) (m : Marker),
      c.hasCommandStartMarker = false → c.hasMarker = true →
      c.marker = some m → resolveMarker (some c) = some m) ∧
    (∀ (env : RefreshEnv) (st : StickyState) (g : Int → Option CommandRecord),
      env.commandDetection = some g →
      (∀ c, g env.buffer.viewportY = some c →
        c.hasCommandStartMarker = false ∧ c.hasMarker = false) →
      (refresh env st).state.element = st.element ∧
      (refresh env st).state.overlayExists = st.overlayExists ∧
      (refresh env st).overlayWrites = [] ∧
      (refresh env st).serializeCalls = []) := by
  refine ⟨?_, ?_, ?_⟩
  · intro c m h1 _ h3
    simp [resolveMarker, h1, h3]
  · intro c m h1 h2 h3
    simp [resolveMarker, h1, h2, h3]
  · intro env st g hg hnone
    have hres : resolveMarker (g env.buffer.viewportY) = none := by
      cases hc : g env.buffer.viewportY with
      | none => simp [resolveMarker]
      | some c =>
        obtain ⟨h1, h2⟩ := hnone c hc
        simp [resolveMarker, h1, h2]
    cases hx : st.hasXtermElement with
    | false => simp [refresh, hx]
    | true => simp [refresh, hx, hg, hres]

/-- Witness for C1 at concrete records and a concrete refresh. -/
theorem refresh_marker_resolution_C1_witness :
    resolveMarker (some ⟨true, some ⟨5⟩, false, none⟩) = some ⟨5⟩ ∧
    resolveMarker (some ⟨false, none, true, some ⟨7⟩⟩) = some ⟨7⟩ ∧
    (refresh ⟨some (fun _ => some ⟨false, none, false, none⟩), none, ⟨3, 10⟩⟩
        ⟨true, none, none, false⟩).overlayWrites = [] :=
  ⟨refresh_marker_resolution_C1.1 ⟨true, some ⟨5⟩, false, none⟩ ⟨5⟩ rfl rfl rfl,
   refresh_marker_resolution_C1.2.1 ⟨false, none, true, some ⟨7⟩⟩ ⟨7⟩ rfl rfl rfl,
   (refresh_marker_resolution_C1.2.2
      ⟨some (fun _ => some ⟨false, none, false, none⟩), none, ⟨3, 10⟩⟩
      ⟨true, none, none, false⟩ _ rfl
      (fun c hc => by injection hc with h; cases h; exact ⟨rfl, rfl⟩)).2.2.1⟩

/-- C10: whenever the record exposes `commandStartMarker`, the resolved
marker is taken from that field (regardless of whether `marker` is also
present); the `marker` field is consulted only when `commandStartMarker` is
absent. -/
theorem resolveMarker_priority_C10 :
    (∀ c : CommandRecord, c.hasCommandStartMarker = true →
      resolveMarker (some c) = c.commandStartMarker) ∧
    (∀ c : CommandRecord, c.hasCommandStartMarker = false → c.hasMarker = true →
      resolveMarker (some c) = c.marker) := by
  constructor
  · intro c h1
    simp [resolveMarker, h1]
  · intro c h1 h2
    simp [resolveMarker, h1, h2]

/-- Witness for C10: a record with both fields resolves to
`commandStartMarker`. -/
theorem resolveMarker_priority_C10_witness :
    resolveMarker (some ⟨true, some ⟨3⟩, true, some ⟨9⟩⟩) = some ⟨3⟩ :=
  resolveMarker_priority_C10.1 ⟨true, some ⟨3⟩, true, some ⟨9⟩⟩ rfl

/-- C4: a refresh whose resolved marker carries the sentinel line `-1`
leaves the overlay element (content and visibility) exactly as it was and
issues no overlay write. -/
theorem refresh_sentinel_no_change_C4 (env : RefreshEnv) (st : StickyState)
    (g : Int → Option CommandRecord) (m : Marker)
    (hg : env.commandDetection = some g)
    (hm : resolveMarker (g env.buffer.viewportY) = some m)
    (hline : m.line = -1) :
    (refresh env st).state.element = st.element ∧
    (refresh env st).overlayWrites = [] := by
  cases hx : st.hasXtermElement with
  | false => simp [refresh, hx]
  | true => simp [refresh, hx, hg, hm, hline]

/-- Witness for C4 at a concrete environment whose command resolves to a
marker with line `-1`. -/
theorem refresh_sentinel_no_change_C4_witness :
    (refresh ⟨some (fun _ => some ⟨true, some ⟨-1⟩, false, none⟩),
        some (fun _ => "x\ry"), ⟨0, 10⟩⟩
      ⟨true, none, some ⟨"hi", true⟩, true⟩).state.element =
      some ⟨"hi", true⟩ :=
  (refresh_sentinel_no_change_C4
    ⟨some (fun _ => some ⟨true, some ⟨-1⟩, false, none⟩),
      some (fun _ => "x\ry"), ⟨0, 10⟩⟩
    ⟨true, none, some ⟨"hi", true⟩, true⟩ _ ⟨-1⟩ rfl rfl rfl).1

/-- C7 counterexample: a buffer-change event reporting the alternate buffer
that arrives before the overlay terminal is constructed and before any
element exists leaves the overlay element *visible*: `_ensureElement`
assigns the fresh default-visible `div` and then throws a TypeError at
`this._stickyScrollOverlay!.open(...)`, so `setVisibility` never runs —
contradicting the claim that the alternate buffer forces hidden regardless
of prior state. -/
theorem bufferChange_crash_counterexample_C7 :
    ((onBufferChange "alternate" ⟨true, none, none, false⟩).element.map
      (fun e => e.visible)) = some true := by rfl

/-- C7 (amended): for every buffer-change event in which `_ensureElement`
succeeds (the overlay element already exists, or the overlay terminal has
been constructed), the overlay element is visible exactly when the reported
buffer type is `"normal"`; in particular a change to the alternate buffer
then hides it regardless of prior state. -/
theorem bufferChange_visibility_amended_C7 (bufferType : String)
    (st : StickyState) (e0 : OverlayElement)
    (he0 : (ensureElement st).1 = some e0) :
    ((onBufferChange bufferType st).element.map (fun e => e.visible)) =
      some (decide (bufferType = "normal")) ∧
    ((onBufferChange "alternate" st).element.map (fun e => e.visible)) =
      some false := by
  cases he : st.element with
  | some e =>
    constructor <;> simp [onBufferChange, ensureElement, he]
  | none =>
    by_cases ho : st.overlayExists
    · constructor <;> simp [onBufferChange, ensureElement, he, ho]
    · exfalso
      simp [ensureElement, he, ho] at he0

/-- Witness for C7 (amended): a buffer change to the alternate buffer hides
the element even when it was previously shown with content. -/
theorem bufferChange_visibility_amended_C7_witness :
    ((onBufferChange "alternate"
        ⟨true, some ⟨4⟩, some ⟨"ls", true⟩, true⟩).element.map
      (fun e => e.visible)) = some false :=
  (bufferChange_visibility_amended_C7 "alternate"
    ⟨true, some ⟨4⟩, some ⟨"ls", true⟩, true⟩ ⟨"ls", true⟩ rfl).2

/-- On the fully-reached write path (marker resolved with a valid line,
overlay terminal and serialize addon present), `_refresh` serializes once
with `scrollback = baseY - marker.line` and writes the reset sequence
followed by the extracted content exactly when that content is non-empty. -/
theorem refresh_write_stage (env : RefreshEnv) (st : StickyState)
    (g : Int → Option CommandRecord) (f : Int → String) (m : Marker)
    (hx : st.hasXtermElement = true)
    (hg : env.commandDetection = some g)
    (hm : resolveMarker (g env.buffer.viewportY) = some m)
    (hline : m.line ≠ -1)
    (hov : st.overlayExists = true)
    (hf : env.serializeAddon = some f) :
    (refresh env st).serializeCalls = [env.buffer.baseY - m.line] ∧
    (refresh env st).overlayWrites =
      (if extractedContent (f (env.buffer.baseY - m.line)) = "" then [resetSeq]
       else [resetSeq, extractedContent (f (env.buffer.baseY - m.line))]) := by
  by_cases hs : f (env.buffer.baseY - m.line) = ""
  · have hc : extractedContent (f (env.buffer.baseY - m.line)) = "" := by
      rw [hs]; exact extractedContent_empty
    cases he : st.element <;>
      simp [refresh, hx, hg, hm, hline, ensureElement, he, hov, hf, hs, hc,
        extractedContent_empty]
  · by_cases hc : extractedContent (f (env.buffer.baseY - m.line)) = "" <;>
      · cases he : st.element <;>
          simp [refresh, hx, hg, hm, hline, ensureElement, he, hov, hf, hs,
            extractedContent] at hc ⊢ <;>
          simp [hc]

/-- On the marker-resolved path, when `_ensureElement` succeeds the
post-state of `_refresh` records the marker and stores the
visibility-adjusted ensured element; every other field is preserved. -/
theorem refresh_state_reach (env : RefreshEnv) (st : StickyState)
    (g : Int → Option CommandRecord) (m : Marker) (e0 : OverlayElement)
    (hx : st.hasXtermElement = true)
    (hg : env.commandDetection = some g)
    (hm : resolveMarker (g env.buffer.viewportY) = some m)
    (hline : m.line ≠ -1)
    (he0 : (ensureElement st).1 = some e0) :
    (refresh env st).state =
      { st with currentStickyMarker := some m,
                element := some (visAdjust e0) } := by
  cases he : st.element with
  | none =>
    by_cases ho : st.overlayExists
    · have he0' : e0 = { textContent := "", visible := true } := by
        simp [ensureElement, he, ho] at he0
        exact he0.symm
      subst he0'
      cases hsa : env.serializeAddon <;>
        simp [refresh, hx, hg, hm, hline, ensureElement, he, ho, hsa, visAdjust] <;>
        split <;> simp_all <;> split <;> simp_all
    · exfalso
      simp [ensureElement, he, ho] at he0
  | some e =>
    have he0' : e0 = e := by
      simp [ensureElement, he] at he0
      exact he0.symm
    subst he0'
    by_cases ho : st.overlayExists <;>
      cases hsa : env.serializeAddon <;>
        simp [refresh, hx, hg, hm, hline, ensureElement, he, ho, hsa, visAdjust] <;>
        split <;> simp_all <;> split <;> simp_all

/-- `visAdjust` preserves the text content and is idempotent. -/
theorem visAdjust_idem (e : OverlayElement) :
    visAdjust (visAdjust e) = visAdjust e := by
  by_cases h : e.textContent = "" <;> simp [visAdjust, h]

/-- The visibility produced by `visAdjust` is exactly non-emptiness of the
element's text content. -/
theorem visAdjust_visible (e : OverlayElement) :
    (visAdjust e).visible = decide (e.textContent ≠ "") := by
  by_cases h : e.textContent = "" <;> simp [visAdjust, h]

/-- C8: a click on the hover overlay issues exactly one scroll request, for
the recorded sticky marker's line with `Middle` alignment, when the
terminal handle and a sticky marker are set; with no sticky marker no
request is issued. -/
theorem click_scroll_C8 (st : StickyState) (m : Marker) (b : Bool) :
    handleClick true { st with currentStickyMarker := some m } =
      some (m.line, ScrollPosition.Middle) ∧
    handleClick b { st with currentStickyMarker := none } = none := by
  constructor
  · simp [handleClick]
  · cases b <;> simp [handleClick]

/-- Witness for C8: a click with a sticky marker at line 17 issues a
centered scroll request to line 17. -/
theorem click_scroll_C8_witness :
    handleClick true ⟨true, some ⟨17⟩, none, false⟩ =
      some (17, ScrollPosition.Middle) :=
  (click_scroll_C8 ⟨true, none, none, false⟩ ⟨17⟩ true).1

/-- C2: a refresh that resolves a valid marker while the overlay terminal
exists and the serialize addon is loaded invokes serialization exactly once,
with `scrollback = baseY - marker.line`, and (when it is non-empty) writes
to the overlay exactly the prefix of the serialized string up to the first
carriage return. -/
theorem refresh_serialize_scrollback_C2 (env : RefreshEnv) (st : StickyState)
    (g : Int → Option CommandRecord) (f : Int → String) (m : Marker)
    (hx : st.hasXtermElement = true)
    (hg : env.commandDetection = some g)
    (hm : resolveMarker (g env.buffer.viewportY) = some m)
    (hline : m.line ≠ -1)
    (hov : st.overlayExists = true)
    (hf : env.serializeAddon = some f)
    (hcontent : extractedContent (f (env.buffer.baseY - m.line)) ≠ "") :
    (refresh env st).serializeCalls = [env.buffer.baseY - m.line] ∧
    (refresh env st).overlayWrites =
      [resetSeq, extractedContent (f (env.buffer.baseY - m.line))] := by
  obtain ⟨h1, h2⟩ := refresh_write_stage env st g f m hx hg hm hline hov hf
  exact ⟨h1, by rw [h2, if_neg hcontent]⟩

/-- Witness for C2 at the spec's scenario: start marker at line 42, `baseY`
100, so serialization is requested for 58 lines and the first line of the
result becomes the overlay content. -/
theorem refresh_serialize_scrollback_C2_witness :
    (refresh ⟨some (fun _ => some ⟨true, some ⟨42⟩, false, none⟩),
        some (fun _ => "echo hi\r\nmore"), ⟨7, 100⟩⟩
      ⟨true, none, none, true⟩).serializeCalls = [(58 : Int)] ∧
    (refresh ⟨some (fun _ => some ⟨true, some ⟨42⟩, false, none⟩),
        some (fun _ => "echo hi\r\nmore"), ⟨7, 100⟩⟩
      ⟨true, none, none, true⟩).overlayWrites = [resetSeq, "echo hi"] := by
  have h := refresh_serialize_scrollback_C2
    ⟨some (fun _ => some ⟨true, some ⟨42⟩, false, none⟩),
      some (fun _ => "echo hi\r\nmore"), ⟨7, 100⟩⟩
    ⟨true, none, none, true⟩ _ _ ⟨42⟩ rfl rfl rfl (by decide) rfl rfl (by decide)
  exact ⟨h.1.trans (by decide), h.2.trans (by decide)⟩

/-- C6: every refresh that reaches the overlay-write stage first writes the
reset sequence (cursor home, erase line) to the overlay terminal, and a
second write — carrying the extracted content — occurs exactly when that
content is non-empty. -/
theorem refresh_reset_then_write_C6 (env : RefreshEnv) (st : StickyState)
    (g : Int → Option CommandRecord) (f : Int → String) (m : Marker)
    (hx : st.hasXtermElement = true)
    (hg : env.commandDetection = some g)
    (hm : resolveMarker (g env.buffer.viewportY) = some m)
    (hline : m.line ≠ -1)
    (hov : st.overlayExists = true)
    (hf : env.serializeAddon = some f) :
    (refresh env st).overlayWrites.head? = some resetSeq ∧
    (extractedContent (f (env.buffer.baseY - m.line)) = "" →
      (refresh env st).overlayWrites = [resetSeq]) ∧
    (extractedContent (f (env.buffer.baseY - m.line)) ≠ "" →
      (refresh env st).overlayWrites =
        [resetSeq, extractedContent (f (env.buffer.baseY - m.line))]) := by
  obtain ⟨-, h2⟩ := refresh_write_stage env st g f m hx hg hm hline hov hf
  by_cases hc : extractedContent (f (env.buffer.baseY - m.line)) = ""
  · rw [h2, if_pos hc]
    exact ⟨rfl, fun _ => rfl, fun hn => absurd hc hn⟩
  · rw [h2, if_neg hc]
    exact ⟨rfl, fun he => absurd he hc, fun _ => rfl⟩

/-- Witness for C6: with serialized output whose first line is empty (a
leading carriage return), only the reset sequence is written. -/
theorem refresh_reset_then_write_C6_witness :
    (refresh ⟨some (fun _ => some ⟨true, some ⟨2⟩, false, none⟩),
        some (fun _ => "\rtail"), ⟨0, 10⟩⟩
      ⟨true, none, none, true⟩).overlayWrites = [resetSeq] :=
  (refresh_reset_then_write_C6
    ⟨some (fun _ => some ⟨true, some ⟨2⟩, false, none⟩),
      some (fun _ => "\rtail"), ⟨0, 10⟩⟩
    ⟨true, none, none, true⟩ _ _ ⟨2⟩ rfl rfl rfl (by decide) rfl rfl).2.1 (by decide)

/-- C9: when the serialized string is non-empty but contains no carriage
return, `indexOf` yields `-1`, the extracted substring is empty, and no
content is written to the overlay terminal (only the reset sequence is). -/
theorem refresh_no_carriage_return_C9 (env : RefreshEnv) (st : StickyState)
    (g : Int → Option CommandRecord) (f : Int → String) (m : Marker)
    (hx : st.hasXtermElement = true)
    (hg : env.commandDetection = some g)
    (hm : resolveMarker (g env.buffer.viewportY) = some m)
    (hline : m.line ≠ -1)
    (hov : st.overlayExists = true)
    (hf : env.serializeAddon = some f)
    (hne : f (env.buffer.baseY - m.line) ≠ "")
    (hnr : ∀ c ∈ (f (env.buffer.baseY - m.line)).data, c ≠ '\r') :
    jsIndexOf (f (env.buffer.baseY - m.line)) '\r' = -1 ∧
    extractedContent (f (env.buffer.baseY - m.line)) = "" ∧
    (refresh env st).overlayWrites = [resetSeq] := by
  have h1 : jsIndexOf (f (env.buffer.baseY - m.line)) '\r' = -1 := by
    unfold jsIndexOf
    rw [findIdx_none_of_all_false _ (fun c hc => decide_eq_false (hnr c hc))]
  have h2 : extractedContent (f (env.buffer.baseY - m.line)) = "" := by
    unfold extractedContent
    rw [h1]
    exact jsSubstring_zero_neg_one _
  obtain ⟨-, hw⟩ := refresh_write_stage env st g f m hx hg hm hline hov hf
  exact ⟨h1, h2, by rw [hw, if_pos h2]⟩

/-- Witness for C9: serialized output `"plain"` (non-empty, no carriage
return) yields empty extracted content and only the reset write. -/
theorem refresh_no_carriage_return_C9_witness :
    extractedContent "plain" = "" ∧
    (refresh ⟨some (fun _ => some ⟨true, some ⟨2⟩, false, none⟩),
        some (fun _ => "plain"), ⟨0, 10⟩⟩
      ⟨true, none, none, true⟩).overlayWrites = [resetSeq] := by
  have h := refresh_no_carriage_return_C9
    ⟨some (fun _ => some ⟨true, some ⟨2⟩, false, none⟩),
      some (fun _ => "plain"), ⟨0, 10⟩⟩
    ⟨true, none, none, true⟩ _ _ ⟨2⟩ rfl rfl rfl (by decide) rfl rfl
    (by decide) (by decide)
  exact ⟨h.2.1, h.2.2⟩

/-- C5 counterexample: a refresh whose serialized content is non-empty
(serialize returns `"hello\rworld"`; the extracted first line `"hello"` is
even written to the overlay terminal) nevertheless leaves the overlay
element hidden, because the show/hide check reads the element's DOM
`textContent` — still empty on the freshly created element — before this
refresh's content is written, and never consults the serialized string. -/
theorem refresh_visibility_counterexample_C5 :
    (refresh ⟨some (fun _ => some ⟨true, some ⟨2⟩, false, none⟩),
        some (fun _ => "hello\rworld"), ⟨0, 10⟩⟩
      ⟨true, none, none, true⟩).overlayWrites = [resetSeq, "hello"] ∧
    ((refresh ⟨some (fun _ => some ⟨true, some ⟨2⟩, false, none⟩),
        some (fun _ => "hello\rworld"), ⟨0, 10⟩⟩
      ⟨true, none, none, true⟩).state.element.map (fun e => e.visible)) =
      some false := by
  constructor <;> rfl

/-- C5 (amended): after a refresh that resolves a valid marker and in which
`_ensureElement` succeeds (the element already exists, or the overlay
terminal has been constructed), the overlay element's visibility equals
non-emptiness of the element's own text content as it stood when the check
ran (not of the serialized content), and an immediately repeated refresh
with unchanged inputs leaves the element — hence its visibility —
unchanged. -/
theorem refresh_visibility_amended_C5 (env : RefreshEnv) (st : StickyState)
    (g : Int → Option CommandRecord) (m : Marker) (e0 : OverlayElement)
    (hx : st.hasXtermElement = true)
    (hg : env.commandDetection = some g)
    (hm : resolveMarker (g env.buffer.viewportY) = some m)
    (hline : m.line ≠ -1)
    (he0 : (ensureElement st).1 = some e0) :
    ((refresh env st).state.element.map (fun e => e.visible)) =
      some (decide (e0.textContent ≠ "")) ∧
    (refresh env (refresh env st).state).state.element =
      (refresh env st).state.element := by
  have h1 := refresh_state_reach env st g m e0 hx hg hm hline he0
  constructor
  · rw [h1]
    simp [visAdjust_visible]
  · have hx2 : (refresh env st).state.hasXtermElement = true := by rw [h1]; exact hx
    have he2 : (ensureElement (refresh env st).state).1 = some (visAdjust e0) := by
      rw [h1]
      simp [ensureElement]
    have h2 := refresh_state_reach env (refresh env st).state g m (visAdjust e0)
      hx2 hg hm hline he2
    rw [h2, h1]
    simp [visAdjust_idem]

/-- Witness for C5 (amended): on a state whose element already holds text
`"ls -l"`, the refresh shows the element. -/
theorem refresh_visibility_amended_C5_witness :
    ((refresh ⟨some (fun _ => some ⟨true, some ⟨2⟩, false, none⟩),
        some (fun _ => "hello\rworld"), ⟨0, 10⟩⟩
      ⟨true, none, some ⟨"ls -l", false⟩, true⟩).state.element.map
        (fun e => e.visible)) = some true := by
  have h := refresh_visibility_amended_C5
    ⟨some (fun _ => some ⟨true, some ⟨2⟩, false, none⟩),
      some (fun _ => "hello\rworld"), ⟨0, 10⟩⟩
    ⟨true, none, some ⟨"ls -l", false⟩, true⟩ _ ⟨2⟩ ⟨"ls -l", false⟩
    rfl rfl rfl (by decide) rfl
  exact h.1.trans (by decide)

/-- C3: of `n ≥ 1` refresh invocations dispatched within one scheduling
turn, the throttled wrapper executes the body exactly once (trailing edge:
the single execution is one run of `refresh` on the state at the end of the
turn), and a turn with no invocations executes it zero times. -/
theorem refresh_throttle_C3 (env : RefreshEnv) (st : StickyState) (n : Nat)
    (hn : 1 ≤ n) :
    throttledExecCount n ≤ 1 ∧
    throttledTurn (fun s => (refresh env s).state) n st =
      (refresh env st).state ∧
    throttledExecCount 0 = 0 := by
  have hn0 : n ≠ 0 := Nat.one_le_iff_ne_zero.mp hn
  refine ⟨?_, ?_, rfl⟩
  · unfold throttledExecCount
    split <;> omega
  · unfold throttledTurn
    rw [if_neg hn0]

/-- Witness for C3 at five invocations in one turn on a concrete state. -/
theorem refresh_throttle_C3_witness :
    throttledTurn
      (fun s => (refresh ⟨none, none, ⟨0, 0⟩⟩ s).state) 5
      ⟨false, none, none, false⟩ =
      (refresh ⟨none, none, ⟨0, 0⟩⟩ ⟨false, none, none, false⟩).state :=
  (refresh_throttle_C3 ⟨none, none, ⟨0, 0⟩⟩ ⟨false, none, none, false⟩ 5
    (by decide)).2.1

end StickyScroll
